import Mathlib

/-!
Shallow embedding of the model-acquisition subsystem of the CommitMessage
repository: `src/lib/config.js` (configuration persistence) and
`src/lib/model-manager.js` (registry, orchestrator `ensureModelExists`,
fetcher `downloadFile`).

Filesystem state is modelled as a partial map from path strings to file
sizes in bytes.  Network behaviour is modelled by an oracle: a list of
per-attempt outcomes consumed one entry per HTTP transfer attempt; the
oracle doubles as fuel for the unbounded recursive retry in `downloadFile`.
Every issued HTTP request is recorded in a trace together with the
TLS-verification-skip flag that was passed to the transport for that
request.
-/

/-- A filesystem restricted to file sizes: `some n` means a file of `n`
bytes exists at the path, `none` means no file exists there. -/
def FS : Type := String → Option Nat

/-- Overwrite the state of one path. -/
def fsSet (fs : FS) (p : String) (v : Option Nat) : FS :=
  fun q => if q = p then v else fs q

/- ----------------------------------------------------------------------
Configuration collaborator: src/lib/config.js.

The on-disk JSON file is modelled abstractly: `Stored.absent` is a missing
file, `Stored.malformed` is a present file whose contents fail JSON
parsing, and `Stored.record` is a present file holding a parsed JSON
object.  JSON serialisation is abstracted by the assumption that
`JSON.stringify` followed by `JSON.parse` round-trips an object, so
`saveConfig` stores the record directly.  A record carries the
`selectedModel` key when present, plus all other keys (values abstracted
as strings).
---------------------------------------------------------------------- -/

/-- A parsed configuration object: the `selectedModel` key when present,
and the remaining keys of the object. -/
structure ConfigRecord where
  selectedModel : Option String
  others : List (String × String)
deriving DecidableEq

/-- The possible states of the on-disk configuration file. -/
inductive Stored where
  | absent
  | malformed
  | record (r : ConfigRecord)
deriving DecidableEq

/-- The configuration value produced by `loadConfig` after spreading the
defaults: `selectedModel` is always present. -/
structure LoadedConfig where
  selectedModel : String
  others : List (String × String)
deriving DecidableEq

/-- `DEFAULT_CONFIG` from config.js: `\x7b selectedModel: "qwen3" \x7d`. -/
def DEFAULT_CONFIG : LoadedConfig := ⟨"qwen3", []⟩

/-- `loadConfig` from config.js: returns the defaults when the file is
absent; a parse failure is caught (with a logged warning) and also yields
the defaults; otherwise the parsed object is spread over the defaults, so
a missing `selectedModel` key falls back to `"qwen3"` and all other keys
are kept. -/
def loadConfig : Stored → LoadedConfig
  | .absent => DEFAULT_CONFIG
  | .malformed => DEFAULT_CONFIG
  | .record r => ⟨r.selectedModel.getD "qwen3", r.others⟩

/-- `saveConfig` from config.js: serialises the configuration object back
to disk (write errors are out of scope: the write is modelled as
succeeding). -/
def saveConfig (c : LoadedConfig) : Stored :=
  .record ⟨some c.selectedModel, c.others⟩

/-- `setSelectedModel` from config.js: load, overwrite the
`selectedModel` key, save. -/
def setSelectedModel (m : String) (st : Stored) : Stored :=
  saveConfig { loadConfig st with selectedModel := m }

/-- `getSelectedModel` from config.js. -/
def getSelectedModel (st : Stored) : String :=
  (loadConfig st).selectedModel

/-- The keys other than `selectedModel` held in the persisted file. -/
def storedOthers : Stored → List (String × String)
  | .record r => r.others
  | _ => []

/- ----------------------------------------------------------------------
Registry: the MODELS table of src/lib/model-manager.js.
---------------------------------------------------------------------- -/

/-- One entry of the MODELS table. -/
structure ModelConfig where
  filename : String
  url : String
  name : String
deriving DecidableEq

/-- The MODELS table from model-manager.js, keyed by model id. -/
def MODELS (k : String) : Option ModelConfig :=
  if k = "qwen3" then
    some ⟨"qwen3-4b.gguf",
      "https://huggingface.co/Qwen/Qwen3-4B-GGUF/resolve/main/Qwen3-4B-Q4_K_M.gguf",
      "Qwen 3 4B"⟩
  else if k = "qwen2.5" then
    some ⟨"qwen2.5-coder-1.5b.gguf",
      "https://huggingface.co/Qwen/Qwen2.5-Coder-1.5B-Instruct-GGUF/resolve/main/qwen2.5-coder-1.5b-instruct-q4_k_m.gguf",
      "Qwen2.5-Coder-1.5B"⟩
  else none

/-- The resolved models directory, `path.join(__dirname, "..", "models")`,
modelled as a fixed path string. -/
def MODELS_DIR : String := "lib/../models"

/-- Destination path of a registry entry:
`path.join(MODELS_DIR, modelConfig.filename)`. -/
def modelPathOf (mc : ModelConfig) : String :=
  MODELS_DIR ++ "/" ++ mc.filename

/- ----------------------------------------------------------------------
Fetcher: downloadFile of src/lib/model-manager.js.
---------------------------------------------------------------------- -/

/-- The content-length response header: absent, or present with a raw
string value. -/
inductive Header where
  | absent
  | val (s : String)
deriving DecidableEq

/-- Value of a run of decimal digits. -/
def digitsVal (cs : List Char) : Nat :=
  cs.foldl (fun acc c => acc * 10 + (c.toNat - '0'.toNat)) 0

/-- JavaScript `parseInt(s, 10)`: skip leading whitespace, read an
optional sign, then the longest prefix of decimal digits; `none` models
`NaN` (no digits found). -/
def parseInt10 (s : String) : Option Int :=
  let cs := s.data.dropWhile Char.isWhitespace
  match cs with
  | '-' :: rest =>
      let ds := rest.takeWhile Char.isDigit
      if ds.isEmpty then none else some (-(digitsVal ds : Int))
  | '+' :: rest =>
      let ds := rest.takeWhile Char.isDigit
      if ds.isEmpty then none else some (digitsVal ds)
  | _ =>
      let ds := cs.takeWhile Char.isDigit
      if ds.isEmpty then none else some (digitsVal ds)

/-- The completeness test of downloadFile, line 200:
`totalLength && stats.size < parseInt(totalLength, 10)`.
An absent header is falsy (`undefined`), an empty string is falsy, and a
non-numeric value gives `NaN`, against which `<` is always false. -/
def checkFails (h : Header) (size : Nat) : Bool :=
  match h with
  | .absent => false
  | .val s =>
      if s = "" then false
      else
        match parseInt10 s with
        | some n => decide ((size : Int) < n)
        | none => false

/-- Outcome of one HTTP transfer attempt, supplied by the oracle:
the axios call rejects (connection error, timeout, non-success status);
the write stream errors after `written` bytes reached disk; or the stream
finishes with the given response header and final on-disk size. -/
inductive Outcome where
  | netError
  | writeError (written : Nat)
  | finished (header : Header) (size : Nat)
deriving DecidableEq

/-- One HTTP request as issued to the transport: the URL and the
TLS-verification-skip flag it carried (line 168: `httpsAgent` with
`rejectUnauthorized: false` exactly when the flag is set). -/
structure Req where
  url : String
  skipTLS : Bool
deriving DecidableEq

/-- How one call to downloadFile settles. `hung` covers the two ways the
returned promise never settles: the oracle (fuel) ran out inside the
unbounded recursive retry, or the awaited retry inside the finish handler
rejected, which is an unhandled rejection since neither `resolve` nor
`reject` of the outer promise is ever called on that path. -/
inductive DlResult where
  | ok
  | errNet
  | errWrite
  | hung
deriving DecidableEq

/-- `downloadFile(url, outputPath, skipSSLVerification)` from
model-manager.js, lines 161-210, as a state transformer over the
filesystem, returning the settlement, the final filesystem, and the trace
of issued requests.  Each attempt: `fs.createWriteStream(outputPath)`
creates or truncates the file; the axios request is issued with the given
TLS flag; on stream finish the file size is re-read and the check of line
200 runs; a failed check unlinks the file and recurses (line 204) with
only `(url, outputPath)` — the TLS flag parameter defaults back to
`false` on the retry.  Network and write-stream errors reject without any
cleanup. -/
def downloadFile (url outPath : String) :
    Bool → List Outcome → FS → DlResult × FS × List Req
  | _, [], fs => (.hung, fs, [])
  | skip, o :: rest, fs =>
    let fs0 := fsSet fs outPath (some 0)
    match o with
    | .netError => (.errNet, fs0, [⟨url, skip⟩])
    | .writeError w => (.errWrite, fsSet fs0 outPath (some w), [⟨url, skip⟩])
    | .finished h size =>
      let fs1 := fsSet fs0 outPath (some size)
      if checkFails h size then
        let fs2 := fsSet fs1 outPath none
        let inner := downloadFile url outPath false rest fs2
        match inner.1 with
        | .ok => (.ok, inner.2.1, ⟨url, skip⟩ :: inner.2.2)
        | _ => (.hung, inner.2.1, ⟨url, skip⟩ :: inner.2.2)
      else
        (.ok, fs1, [⟨url, skip⟩])

/- ----------------------------------------------------------------------
Orchestrator: ensureModelExists of src/lib/model-manager.js.
---------------------------------------------------------------------- -/

/-- Mutable state touched by the orchestrator: whether MODELS_DIR exists,
and the files. -/
structure SysState where
  dirExists : Bool
  fs : FS

/-- How one call to `ensureModelExists` settles. -/
inductive EnsureResult where
  | ok (path : String)
  | unknownModel (key : String)
  | downloadFailed (e : DlResult)
  | hung
deriving DecidableEq

/-- `ensureModelExists(modelKey = null, skipSSLVerification = false)` from
model-manager.js, lines 126-159.  Creates MODELS_DIR when missing (before
anything else); resolves the key (`modelKey || getSelectedModel()`, where
the empty string is falsy); throws on a key missing from MODELS; returns
the destination path immediately when a file of any size exists there;
otherwise downloads and returns the path on success, rethrowing a
download rejection. -/
def ensureModelExists (modelKey : Option String) (skip : Bool)
    (cfg : Stored) (oracle : List Outcome) (st : SysState) :
    EnsureResult × SysState × List Req :=
  let st1 : SysState := if st.dirExists then st else { st with dirExists := true }
  let selected :=
    match modelKey with
    | some k => if k = "" then getSelectedModel cfg else k
    | none => getSelectedModel cfg
  match MODELS selected with
  | none => (.unknownModel selected, st1, [])
  | some mc =>
    let modelPath := modelPathOf mc
    if (st1.fs modelPath).isSome then
      (.ok modelPath, st1, [])
    else
      let res := downloadFile mc.url modelPath skip oracle st1.fs
      match res.1 with
      | .ok => (.ok modelPath, { st1 with fs := res.2.1 }, res.2.2)
      | .hung => (.hung, { st1 with fs := res.2.1 }, res.2.2)
      | e => (.downloadFailed e, { st1 with fs := res.2.1 }, res.2.2)

/- ----------------------------------------------------------------------
Helper lemmas.
---------------------------------------------------------------------- -/

/-- Writing the same path twice keeps only the second write. -/
theorem fsSet_fsSet (fs : FS) (p : String) (a b : Option Nat) :
    fsSet (fsSet fs p a) p b = fsSet fs p b := by
  funext q
  by_cases h : q = p <;> simp [fsSet, h]

/-- The orchestrator path when the destination file already exists:
the path is returned at once, no request is issued, and only the
directory-existence bit can change. -/
theorem ensure_existing_aux (key : String) (mc : ModelConfig) (skip : Bool)
    (cfg : Stored) (oracle : List Outcome) (st : SysState)
    (hk : key ≠ "") (hm : MODELS key = some mc)
    (hf : (st.fs (modelPathOf mc)).isSome = true) :
    ensureModelExists (some key) skip cfg oracle st
      = (.ok (modelPathOf mc),
         if st.dirExists then st else { st with dirExists := true }, []) := by
  cases hd : st.dirExists <;> simp [ensureModelExists, hk, hm, hd, hf]

/-- C9: for every state of the configuration file that is absent or
unparsable JSON, loading does not fail and yields the built-in default
selected-model id `"qwen3"` (parse failure is recovered, not fatal). -/
theorem config_defaults_on_absent_or_malformed :
    getSelectedModel .absent = "qwen3" ∧
    getSelectedModel .malformed = "qwen3" ∧
    loadConfig .absent = DEFAULT_CONFIG ∧
    loadConfig .malformed = DEFAULT_CONFIG :=
  ⟨rfl, rfl, rfl, rfl⟩

/-- C10: for every model id and every prior configuration content,
`setSelectedModel` followed by `getSelectedModel` returns that id, and
`setSelectedModel` changes only the `selectedModel` key: every other key
of the persisted record is preserved unchanged. -/
theorem set_get_roundtrip_preserves_others (m : String) (st : Stored) :
    getSelectedModel (setSelectedModel m st) = m ∧
    storedOthers (setSelectedModel m st) = storedOthers st := by
  cases st <;>
    simp [getSelectedModel, setSelectedModel, saveConfig, loadConfig,
      storedOthers, DEFAULT_CONFIG]

/-- Whenever downloadFile settles successfully, a file is present at the
destination path in the final filesystem. -/
theorem downloadFile_ok_file (url out : String) (oracle : List Outcome) :
    ∀ (skip : Bool) (fs : FS),
      (downloadFile url out skip oracle fs).1 = .ok →
      ∃ s, (downloadFile url out skip oracle fs).2.1 out = some s := by
  induction oracle with
  | nil => intro skip fs h; simp [downloadFile] at h
  | cons o rest ih =>
    intro skip fs h
    cases o with
    | netError => simp [downloadFile] at h
    | writeError w => simp [downloadFile] at h
    | finished hd size =>
      by_cases hc : checkFails hd size
      · simp only [downloadFile, hc, if_true] at h ⊢
        cases hinner :
            (downloadFile url out false rest
              (fsSet (fsSet (fsSet fs out (some 0)) out (some size)) out none)).1 with
        | ok =>
          simp only [hinner]
          exact ih false _ hinner
        | errNet => simp [hinner] at h
        | errWrite => simp [hinner] at h
        | hung => simp [hinner] at h
      · simp only [downloadFile, hc, if_false]
        exact ⟨size, by simp [fsSet]⟩

/-- The first request issued by a downloadFile call with at least one
oracle entry carries exactly the TLS flag the call received. -/
theorem downloadFile_trace_head (url out : String) (skip : Bool)
    (o : Outcome) (rest : List Outcome) (fs : FS) :
    (downloadFile url out skip (o :: rest) fs).2.2.head? = some ⟨url, skip⟩ := by
  cases o with
  | netError => simp [downloadFile]
  | writeError w => simp [downloadFile]
  | finished hd size =>
    by_cases hc : checkFails hd size
    · simp only [downloadFile, hc, if_true]
      cases hinner :
          (downloadFile url out false rest
            (fsSet (fsSet (fsSet fs out (some 0)) out (some size)) out none)).1 <;>
        simp [hinner]
    · simp [downloadFile, hc]

/-- C8: for every artifact whose file already exists at the destination
path, two successive calls to ensureModelExists yield the same path both
times, with no request issued on either call. -/
theorem ensure_idempotent_for_existing_artifact
    (key : String) (mc : ModelConfig) (s : Nat) (skip1 skip2 : Bool)
    (cfg1 cfg2 : Stored) (o1 o2 : List Outcome) (st : SysState)
    (hk : key ≠ "") (hm : MODELS key = some mc)
    (hf : st.fs (modelPathOf mc) = some s) :
    (ensureModelExists (some key) skip1 cfg1 o1 st).1 = .ok (modelPathOf mc) ∧
    (ensureModelExists (some key) skip1 cfg1 o1 st).2.2 = [] ∧
    (ensureModelExists (some key) skip2 cfg2 o2
        (ensureModelExists (some key) skip1 cfg1 o1 st).2.1).1
      = .ok (modelPathOf mc) ∧
    (ensureModelExists (some key) skip2 cfg2 o2
        (ensureModelExists (some key) skip1 cfg1 o1 st).2.1).2.2 = [] := by
  have hf1 : (st.fs (modelPathOf mc)).isSome = true := by simp [hf]
  have h1 := ensure_existing_aux key mc skip1 cfg1 o1 st hk hm hf1
  have hst1 : (ensureModelExists (some key) skip1 cfg1 o1 st).2.1.fs = st.fs := by
    rw [h1]; cases st.dirExists <;> rfl
  have hf2 : ((ensureModelExists (some key) skip1 cfg1 o1 st).2.1.fs
      (modelPathOf mc)).isSome = true := by rw [hst1]; simp [hf]
  have h2 := ensure_existing_aux key mc skip2 cfg2 o2
    (ensureModelExists (some key) skip1 cfg1 o1 st).2.1 hk hm hf2
  exact ⟨by rw [h1], by rw [h1], by rw [h2], by rw [h2]⟩

/-- Witness for C8 at a concrete state holding a complete 2 GiB file. -/
theorem ensure_idempotent_for_existing_artifact_witness :
    (ensureModelExists (some "qwen3") false .absent []
        ⟨true, fun p => if p = "lib/../models/qwen3-4b.gguf"
          then some 2147483648 else none⟩).1
      = .ok (modelPathOf ⟨"qwen3-4b.gguf",
          "https://huggingface.co/Qwen/Qwen3-4B-GGUF/resolve/main/Qwen3-4B-Q4_K_M.gguf",
          "Qwen 3 4B"⟩) ∧
    (ensureModelExists (some "qwen3") false .absent []
        ⟨true, fun p => if p = "lib/../models/qwen3-4b.gguf"
          then some 2147483648 else none⟩).2.2 = [] ∧
    (ensureModelExists (some "qwen3") false .absent []
        (ensureModelExists (some "qwen3") false .absent []
          ⟨true, fun p => if p = "lib/../models/qwen3-4b.gguf"
            then some 2147483648 else none⟩).2.1).1
      = .ok (modelPathOf ⟨"qwen3-4b.gguf",
          "https://huggingface.co/Qwen/Qwen3-4B-GGUF/resolve/main/Qwen3-4B-Q4_K_M.gguf",
          "Qwen 3 4B"⟩) ∧
    (ensureModelExists (some "qwen3") false .absent []
        (ensureModelExists (some "qwen3") false .absent []
          ⟨true, fun p => if p = "lib/../models/qwen3-4b.gguf"
            then some 2147483648 else none⟩).2.1).2.2 = [] :=
  ensure_idempotent_for_existing_artifact "qwen3" _ 2147483648 false false
    .absent .absent [] []
    ⟨true, fun p => if p = "lib/../models/qwen3-4b.gguf"
      then some 2147483648 else none⟩
    (by decide) (by decide) (by decide)

/-- C3: the code evaluated at the failing input.  A 5-byte file — far
below any minimum-plausible-size threshold such as 1 MiB — already sits
at the destination path, yet ensureModelExists returns its path, does
not delete it (it still holds 5 bytes afterwards) and issues no request,
against the claim and against the test suite, which expects an existing
file of 100 bytes, and even of exactly 1 MiB, to be unlinked and
re-downloaded. -/
theorem small_existing_file_returned_as_is :
    (ensureModelExists (some "qwen3") false .absent []
        ⟨true, fun p => if p = "lib/../models/qwen3-4b.gguf"
          then some 5 else none⟩).1
      = .ok "lib/../models/qwen3-4b.gguf" ∧
    (ensureModelExists (some "qwen3") false .absent []
        ⟨true, fun p => if p = "lib/../models/qwen3-4b.gguf"
          then some 5 else none⟩).2.1.fs "lib/../models/qwen3-4b.gguf"
      = some 5 ∧
    (ensureModelExists (some "qwen3") false .absent []
        ⟨true, fun p => if p = "lib/../models/qwen3-4b.gguf"
          then some 5 else none⟩).2.2 = [] :=
  ⟨by decide, by decide, by decide⟩

/-- What the code actually does: ensureModelExists applies no
minimum-size threshold at all — a file of any size at the destination
path, however small, is returned as-is, with no deletion and no Fetcher
invocation. -/
theorem existing_file_skips_download (key : String) (mc : ModelConfig)
    (s : Nat) (skip : Bool) (cfg : Stored) (oracle : List Outcome)
    (st : SysState)
    (hk : key ≠ "") (hm : MODELS key = some mc)
    (hf : st.fs (modelPathOf mc) = some s) :
    (ensureModelExists (some key) skip cfg oracle st).1 = .ok (modelPathOf mc) ∧
    (ensureModelExists (some key) skip cfg oracle st).2.1.fs = st.fs ∧
    (ensureModelExists (some key) skip cfg oracle st).2.2 = [] := by
  have hf1 : (st.fs (modelPathOf mc)).isSome = true := by simp [hf]
  have h := ensure_existing_aux key mc skip cfg oracle st hk hm hf1
  refine ⟨by rw [h], ?_, by rw [h]⟩
  rw [h]; cases st.dirExists <;> rfl

/-- Witness: an existing 5-byte file is returned untouched. -/
theorem existing_file_skips_download_witness :
    (ensureModelExists (some "qwen3") false .malformed []
        ⟨false, fun p => if p = "lib/../models/qwen3-4b.gguf"
          then some 5 else none⟩).1
      = .ok (modelPathOf ⟨"qwen3-4b.gguf",
          "https://huggingface.co/Qwen/Qwen3-4B-GGUF/resolve/main/Qwen3-4B-Q4_K_M.gguf",
          "Qwen 3 4B"⟩) ∧
    (ensureModelExists (some "qwen3") false .malformed []
        ⟨false, fun p => if p = "lib/../models/qwen3-4b.gguf"
          then some 5 else none⟩).2.1.fs
      = (⟨false, fun p => if p = "lib/../models/qwen3-4b.gguf"
          then some 5 else none⟩ : SysState).fs ∧
    (ensureModelExists (some "qwen3") false .malformed []
        ⟨false, fun p => if p = "lib/../models/qwen3-4b.gguf"
          then some 5 else none⟩).2.2 = [] :=
  existing_file_skips_download "qwen3" _ 5 false .malformed []
    ⟨false, fun p => if p = "lib/../models/qwen3-4b.gguf"
      then some 5 else none⟩
    (by decide) (by decide) (by decide)

/-- C2 counterexample: with the models directory absent and an id that is
not in MODELS, ensureModelExists does fail with the unknown-model error,
but only after creating the models directory — the directory-existence
bit flips from false to true — refuting the claim that no directory is
created before the failure. -/
theorem unknown_model_creates_models_dir :
    (⟨false, fun _ => none⟩ : SysState).dirExists = false ∧
    (ensureModelExists (some "nope") false .absent []
        ⟨false, fun _ => none⟩).1 = .unknownModel "nope" ∧
    (ensureModelExists (some "nope") false .absent []
        ⟨false, fun _ => none⟩).2.1.dirExists = true :=
  ⟨by decide, by decide, by decide⟩

/-- C2 amended: for every id not in MODELS, ensureModelExists fails with
the unknown-model error, touches no file and issues no request — but the
models directory is created (when absent) before the registry lookup, so
the failure is not free of all filesystem activity. -/
theorem unknown_model_error_before_io (key : String) (skip : Bool)
    (cfg : Stored) (oracle : List Outcome) (st : SysState)
    (hk : key ≠ "") (hm : MODELS key = none) :
    (ensureModelExists (some key) skip cfg oracle st).1 = .unknownModel key ∧
    (ensureModelExists (some key) skip cfg oracle st).2.1.fs = st.fs ∧
    (ensureModelExists (some key) skip cfg oracle st).2.2 = [] ∧
    (ensureModelExists (some key) skip cfg oracle st).2.1.dirExists = true := by
  cases hd : st.dirExists <;> simp [ensureModelExists, hk, hm, hd]

/-- Witness for the amended C2 at the id `"nope"`. -/
theorem unknown_model_error_before_io_witness :
    (ensureModelExists (some "nope") true .absent []
        ⟨false, fun _ => none⟩).1 = .unknownModel "nope" ∧
    (ensureModelExists (some "nope") true .absent []
        ⟨false, fun _ => none⟩).2.1.fs
      = (⟨false, fun _ => none⟩ : SysState).fs ∧
    (ensureModelExists (some "nope") true .absent []
        ⟨false, fun _ => none⟩).2.2 = [] ∧
    (ensureModelExists (some "nope") true .absent []
        ⟨false, fun _ => none⟩).2.1.dirExists = true :=
  unknown_model_error_before_io "nope" true .absent [] ⟨false, fun _ => none⟩
    (by decide) (by decide)

/-- C1: the code evaluated at the failing input.  A zero-byte file — not
Complete under any reading (its size is neither at least an expected
remote size nor non-zero) — already sits at the destination path, and
ensureModelExists returns that path without any check, against the claim
(and against the test suite, which expects the size of an existing file
to be verified) that a returned path never refers to an empty or
partially written artifact. -/
theorem ensure_returns_empty_file_path :
    (ensureModelExists (some "qwen3") false .absent []
        ⟨true, fun p => if p = "lib/../models/qwen3-4b.gguf"
          then some 0 else none⟩).1
      = .ok "lib/../models/qwen3-4b.gguf" ∧
    (ensureModelExists (some "qwen3") false .absent []
        ⟨true, fun p => if p = "lib/../models/qwen3-4b.gguf"
          then some 0 else none⟩).2.1.fs "lib/../models/qwen3-4b.gguf"
      = some 0 ∧
    (ensureModelExists (some "qwen3") false .absent []
        ⟨true, fun p => if p = "lib/../models/qwen3-4b.gguf"
          then some 0 else none⟩).2.2 = [] :=
  ⟨by decide, by decide, by decide⟩

/-- The guarantee the code does provide: whenever ensureModelExists
returns a path, some file is present at that path in the final state —
but the file is not verified to be Complete: a pre-existing file of any
size, including zero bytes, is returned as-is with no size check. -/
theorem ensure_ok_implies_file_present (mk : Option String) (skip : Bool)
    (cfg : Stored) (oracle : List Outcome) (st : SysState) (p : String)
    (h : (ensureModelExists mk skip cfg oracle st).1 = .ok p) :
    ∃ s, (ensureModelExists mk skip cfg oracle st).2.1.fs p = some s := by
  simp only [ensureModelExists] at h ⊢
  split at h
  · simp at h
  · rename_i mc heq
    by_cases hd : st.dirExists = true <;>
      simp only [hd, if_true, Bool.false_eq_true, if_false] at h ⊢ <;>
    by_cases hex : (st.fs (modelPathOf mc)).isSome = true <;>
      simp only [hex, if_true, Bool.false_eq_true, if_false] at h ⊢ <;>
    first
      | (obtain ⟨s, hs⟩ := Option.isSome_iff_exists.mp hex
         simp only [EnsureResult.ok.injEq] at h
         subst h
         exact ⟨s, hs⟩)
      | (cases hres : (downloadFile mc.url (modelPathOf mc) skip oracle st.fs).1 <;>
          simp only [hres, Bool.false_eq_true, if_false] at h ⊢ <;>
         first
           | (simp only [EnsureResult.ok.injEq] at h
              subst h
              exact downloadFile_ok_file _ _ _ _ _ hres)
           | simp at h)

/-- Witness: a successful return on a pre-existing 7-byte file yields a
path with a file present at it. -/
theorem ensure_ok_implies_file_present_witness :
    ∃ s, (ensureModelExists (some "qwen2.5") false .absent []
        ⟨true, fun p => if p = "lib/../models/qwen2.5-coder-1.5b.gguf"
          then some 7 else none⟩).2.1.fs
        "lib/../models/qwen2.5-coder-1.5b.gguf" = some s :=
  ensure_ok_implies_file_present (some "qwen2.5") false .absent []
    ⟨true, fun p => if p = "lib/../models/qwen2.5-coder-1.5b.gguf"
      then some 7 else none⟩
    "lib/../models/qwen2.5-coder-1.5b.gguf" (by decide)

/-- C4 counterexample: with the TLS-skip flag set and header `"1000"`
against an actual size of 500, the transfer is retried — but not with the
same parameters: the retry request carries the flag reset to `false`
(trace of flags `[true, false]`), because the recursive call at line 204
passes only the url and output path. -/
theorem retry_drops_tls_flag_on_short_download :
    ((downloadFile "u" "p" true
        [.finished (.val "1000") 500, .finished (.val "1000") 1000]
        (fun _ => none)).2.2).map Req.skipTLS = [true, false] ∧
    (downloadFile "u" "p" true
        [.finished (.val "1000") 500, .finished (.val "1000") 1000]
        (fun _ => none)).1 = .ok :=
  ⟨by decide, by decide⟩

/-- C4 amended: with a known numeric expected size, completion requires
actual size at least expected — equal-or-larger means no retry and a
successful resolution; a short file is deleted and the whole transfer is
retried recursively with the same url and destination path, but with the
TLS-skip flag reset to its default instead of the original parameters. -/
theorem known_size_check_and_retry (url out s : String) (n : Int) (size : Nat)
    (skip : Bool) (rest : List Outcome) (fs : FS)
    (hs : s ≠ "") (hn : parseInt10 s = some n) :
    (¬ ((size : Int) < n) →
      downloadFile url out skip (.finished (.val s) size :: rest) fs
        = (.ok, fsSet fs out (some size), [⟨url, skip⟩])) ∧
    ((size : Int) < n →
      (downloadFile url out skip (.finished (.val s) size :: rest) fs).2.1
        = (downloadFile url out false rest (fsSet fs out none)).2.1 ∧
      (downloadFile url out skip (.finished (.val s) size :: rest) fs).2.2
        = ⟨url, skip⟩ :: (downloadFile url out false rest (fsSet fs out none)).2.2) := by
  have hc : checkFails (.val s) size = decide ((size : Int) < n) := by
    simp [checkFails, hs, hn]
  constructor
  · intro hlt
    have hc2 : checkFails (.val s) size = false := by simp [hc, hlt]
    simp [downloadFile, hc2, fsSet_fsSet]
  · intro hlt
    have hc2 : checkFails (.val s) size = true := by simp [hc, hlt]
    simp only [downloadFile, hc2, if_true, fsSet_fsSet]
    cases hres : (downloadFile url out false rest (fsSet fs out none)).1 <;>
      simp [hres]

/-- Witness for the amended C4: header `"1000"` with actual size 1000
resolves with a single request and no retry. -/
theorem known_size_check_and_retry_witness :
    downloadFile "u" "p" false [.finished (.val "1000") 1000] (fun _ => none)
      = (.ok, fsSet (fun _ => none) "p" (some 1000), [⟨"u", false⟩]) :=
  (known_size_check_and_retry "u" "p" "1000" 1000 1000 false [] (fun _ => none)
    (by decide) (by decide)).1 (by decide)

/-- C5 counterexample: with the length header absent and a downloaded
size of 0, downloadFile resolves successfully after a single request —
no retry is attempted, the zero-byte file is kept — refuting the claimed
fallback to a non-zero-size completeness check. -/
theorem zero_byte_download_accepted_without_header :
    (downloadFile "u" "p" false [.finished .absent 0] (fun _ => none)).1
      = .ok ∧
    (downloadFile "u" "p" false [.finished .absent 0] (fun _ => none)).2.1 "p"
      = some 0 ∧
    (downloadFile "u" "p" false [.finished .absent 0] (fun _ => none)).2.2
      = [⟨"u", false⟩] :=
  ⟨by decide, by decide, by decide⟩

/-- C5 amended: when the expected size is unknown — the length header
absent, or present but non-numeric (treated as unknown, not as a parse
error) — no completeness check is performed at all: a download of any
size, including zero bytes, resolves successfully with a single request
and the file is kept. -/
theorem unknown_size_skips_completeness_check (url out : String) (skip : Bool)
    (h : Header) (size : Nat) (rest : List Outcome) (fs : FS)
    (hu : h = Header.absent ∨ ∃ s, h = Header.val s ∧ parseInt10 s = none) :
    downloadFile url out skip (.finished h size :: rest) fs
      = (.ok, fsSet fs out (some size), [⟨url, skip⟩]) := by
  have hc : checkFails h size = false := by
    rcases hu with rfl | ⟨s, rfl, hp⟩
    · rfl
    · by_cases hs : s = "" <;> simp [checkFails, hs, hp]
  simp [downloadFile, hc, fsSet_fsSet]

/-- Witness for the amended C5: header `"invalid"` with a zero-byte
result resolves without retry. -/
theorem unknown_size_skips_completeness_check_witness :
    downloadFile "u" "p" false [.finished (.val "invalid") 0] (fun _ => none)
      = (.ok, fsSet (fun _ => none) "p" (some 0), [⟨"u", false⟩]) :=
  unknown_size_skips_completeness_check "u" "p" false (.val "invalid") 0 []
    (fun _ => none) (Or.inr ⟨"invalid", rfl, by decide⟩)

/-- C6 counterexample: the write stream errors after 500 bytes; the error
is propagated, but the 500-byte partial file is still present at the
destination path afterwards — nothing deletes it — refuting the claim
that no partial artifact remains after any exit path. -/
theorem write_error_leaves_partial_file :
    (downloadFile "u" "p" false [.writeError 500] (fun _ => none)).1
      = .errWrite ∧
    (downloadFile "u" "p" false [.writeError 500] (fun _ => none)).2.1 "p"
      = some 500 :=
  ⟨by decide, by decide⟩

/-- C6 amended: a network failure or a write-stream error propagates to
the caller without any retry (exactly one request is issued), but the
partial file is not cleaned up: an empty file (network failure happens
after the write stream created the file) or a partially written file
remains at the destination path.  Only a failed completeness check
deletes the file. -/
theorem network_write_errors_propagate_without_cleanup (url out : String)
    (skip : Bool) (rest : List Outcome) (fs : FS) (w : Nat) :
    downloadFile url out skip (.netError :: rest) fs
      = (.errNet, fsSet fs out (some 0), [⟨url, skip⟩]) ∧
    downloadFile url out skip (.writeError w :: rest) fs
      = (.errWrite, fsSet fs out (some w), [⟨url, skip⟩]) := by
  constructor <;> simp [downloadFile, fsSet_fsSet]

/-- C7 counterexample: a fetch started with the TLS-skip flag set whose
first attempt comes up short retries, and the retry request is issued
with the flag cleared: the flags carried by the two requests are
`[true, false]`, so the flag is not plumbed into every transfer attempt
of the fetch. -/
theorem tls_flag_not_plumbed_to_retry :
    ((downloadFile "m" "q" true
        [.finished (.val "2000") 100, .finished (.val "2000") 2000]
        (fun _ => none)).2.2).map Req.skipTLS = [true, false] := by
  decide

/-- On a failed completeness check, the request trace is the first
request followed by the trace of the retry, which runs on the deleted
file with the TLS flag reset to false. -/
theorem downloadFile_retry_trace (url out : String) (skip : Bool)
    (hdr : Header) (size : Nat) (rest : List Outcome) (fs : FS)
    (hc : checkFails hdr size = true) :
    (downloadFile url out skip (.finished hdr size :: rest) fs).2.2
      = ⟨url, skip⟩ :: (downloadFile url out false rest (fsSet fs out none)).2.2 := by
  simp only [downloadFile, hc, if_true, fsSet_fsSet]
  cases hres : (downloadFile url out false rest (fsSet fs out none)).1 <;>
    simp [hres]

/-- C7 amended: the TLS-skip flag is plumbed into the transport trust
configuration on the initial attempt of every downloadFile call — the
first issued request always carries exactly the flag the call received —
but the recursive retry after a failed completeness check does not
receive it: the retry attempt is issued with the flag reset to false. -/
theorem tls_flag_initial_attempt_only (url out : String) (skip : Bool)
    (hdr : Header) (size : Nat) (o2 : Outcome) (rest2 : List Outcome) (fs : FS)
    (hc : checkFails hdr size = true) :
    (∀ (o : Outcome) (rest : List Outcome) (fs2 : FS),
        (downloadFile url out skip (o :: rest) fs2).2.2.head? = some ⟨url, skip⟩) ∧
    (((downloadFile url out skip (.finished hdr size :: o2 :: rest2) fs).2.2).map
        Req.skipTLS).take 2 = [skip, false] := by
  refine ⟨fun o rest fs2 => downloadFile_trace_head url out skip o rest fs2, ?_⟩
  rw [downloadFile_retry_trace url out skip hdr size (o2 :: rest2) fs hc]
  have hh := downloadFile_trace_head url out false o2 rest2 (fsSet fs out none)
  cases hl : (downloadFile url out false (o2 :: rest2) (fsSet fs out none)).2.2 with
  | nil => rw [hl] at hh; simp at hh
  | cons a t =>
    rw [hl] at hh
    simp only [List.head?_cons, Option.some.injEq] at hh
    subst hh
    simp [hl]

/-- Witness for the amended C7: a short first attempt under header
`"900"` with the flag set retries with the flag cleared. -/
theorem tls_flag_initial_attempt_only_witness :
    checkFails (.val "900") 400 = true ∧
    (((downloadFile "u" "p" true
        [.finished (.val "900") 400, .finished (.val "900") 900]
        (fun _ => none)).2.2).map Req.skipTLS).take 2 = [true, false] :=
  ⟨by decide,
   (tls_flag_initial_attempt_only "u" "p" true (.val "900") 400
     (.finished (.val "900") 900) [] (fun _ => none) (by decide)).2⟩
